import Mathlib

/-
  Verification development for the fabularius.art infrastructure glue:
  a shallow embedding of the ConfigureS3Notification custom-resource
  handler (index.py), its response signaler (cfnresponse.py) and the
  env-JSON generator script (create-backend-env-json.py), with theorems
  about the reconciliation and error-handling behaviour.
-/

namespace S3Notif

/-- A single filter rule in an S3 notification filter, e.g. Name "prefix", Value "albums/". -/
structure FilterRule where
  ruleName : String
  ruleValue : String
deriving DecidableEq, Repr

/-- One entry of a LambdaFunctionConfigurations list. `id` is optional because
Python reads it with `conf.get("Id")`, which yields None when absent. -/
structure LambdaConfig where
  id : Option String
  lambdaFunctionArn : Option String
  events : List String
  filterRules : List FilterRule
deriving DecidableEq, Repr

/-- The bucket notification-configuration document: a dict with three optional
configuration-kind keys plus the transport-metadata key S3 sometimes returns.
`none` models an absent key; queue/topic entries are opaque payloads. -/
structure NotificationConfig where
  lambdaFunctionConfigurations : Option (List LambdaConfig) := none
  queueConfigurations : Option (List String) := none
  topicConfigurations : Option (List String) := none
  responseMetadata : Option String := none
deriving DecidableEq, Repr

/-- The TRIGGERS constant of index.py: (Id, Prefix) pairs. -/
def TRIGGERS : List (String × String) :=
  [("ProcessMediaUploadTrigger", "albums/"), ("ProcessAvatarUploadTrigger", "users/")]

/-- TRIGGER_IDS = the set of owned identifiers. -/
def TRIGGER_IDS : List String := TRIGGERS.map Prod.fst

/-- Membership test `conf.get("Id") in TRIGGER_IDS`; None is never a member. -/
def isOurId (i : Option String) : Bool :=
  match i with
  | some s => TRIGGER_IDS.contains s
  | none => false

/-- The filter predicate `conf.get("Id") not in TRIGGER_IDS` used by
remove_our_triggers and upsert_our_triggers. -/
def notOurs (c : LambdaConfig) : Bool := !isOurId c.id

/-- build_our_triggers: our trigger configs with the right function ARN,
built from TRIGGERS in order (albums first, users second). -/
def build_our_triggers (function_arn : String) : List LambdaConfig :=
  TRIGGERS.map fun t =>
    { id := some t.1
      lambdaFunctionArn := some function_arn
      events := ["s3:ObjectCreated:*"]
      filterRules := [{ ruleName := "prefix", ruleValue := t.2 }] }

/-- `if k in cfg and not cfg[k]: del cfg[k]` for one key. -/
def dropIfEmpty {α : Type} (o : Option (List α)) : Option (List α) :=
  match o with
  | some [] => none
  | x => x

/-- clean_empty_keys: remove empty configuration-kind keys S3 dislikes. -/
def clean_empty_keys (cfg : NotificationConfig) : NotificationConfig :=
  { cfg with
    lambdaFunctionConfigurations := dropIfEmpty cfg.lambdaFunctionConfigurations
    queueConfigurations := dropIfEmpty cfg.queueConfigurations
    topicConfigurations := dropIfEmpty cfg.topicConfigurations }

/-- get_current_config: the GET call either returns a raw document or raises;
on success the ResponseMetadata key is popped and the function-trigger key is
ensured present; on any error the fallback document is returned. -/
def get_current_config (getResult : Except String NotificationConfig) : NotificationConfig :=
  match getResult with
  | Except.ok raw =>
      let curr : NotificationConfig := { raw with responseMetadata := none }
      if curr.lambdaFunctionConfigurations.isNone then
        { curr with lambdaFunctionConfigurations := some [] }
      else curr
  | Except.error _ => { lambdaFunctionConfigurations := some [] }

/-- remove_our_triggers: drop entries whose Id is one of ours; always writes
the key back (present, possibly empty). -/
def remove_our_triggers (cfg : NotificationConfig) : NotificationConfig :=
  { cfg with
    lambdaFunctionConfigurations :=
      some ((cfg.lambdaFunctionConfigurations.getD []).filter notOurs) }

/-- upsert_our_triggers: remove any entries with our Ids, then append the
freshly built owned entries at the end. -/
def upsert_our_triggers (cfg : NotificationConfig) (function_arn : String) : NotificationConfig :=
  let orig := cfg.lambdaFunctionConfigurations.getD []
  let new_ours := build_our_triggers function_arn
  let without_ours := orig.filter notOurs
  { cfg with lambdaFunctionConfigurations := some (without_ours ++ new_ours) }

lemma filter_notOurs_build (arn : String) :
    (build_our_triggers arn).filter notOurs = [] := rfl

lemma filter_notOurs_idem (l : List LambdaConfig) :
    (l.filter notOurs).filter notOurs = l.filter notOurs := by
  induction l with
  | nil => rfl
  | cons a t ih =>
      by_cases h : notOurs a = true
      · simp [List.filter_cons, h, ih]
      · simp [List.filter_cons, h, ih]

lemma filter_ours_of_filter_notOurs (l : List LambdaConfig) :
    (l.filter notOurs).filter (fun c => isOurId c.id) = [] := by
  induction l with
  | nil => rfl
  | cons a t ih =>
      by_cases h : notOurs a = true
      · have h2 : isOurId a.id = false := by
          have := h
          simp [notOurs] at this
          simpa using this
        simp [List.filter_cons, h, h2, ih]
      · simp [List.filter_cons, h, ih]

lemma filter_ours_build (arn : String) :
    (build_our_triggers arn).filter (fun c => isOurId c.id) = build_our_triggers arn := rfl

/-- Claim C2: upserting with f1 and then with f2 equals a single upsert with
f2 (function-trigger list order included); the result carries exactly the two
owned entries of build_our_triggers f2, both referencing f2; repeating upsert
with the same reference is the f1 = f2 instance. -/
theorem upsert_upsert_eq_upsert (cfg : NotificationConfig) (f1 f2 : String) :
    upsert_our_triggers (upsert_our_triggers cfg f1) f2 = upsert_our_triggers cfg f2 ∧
    ((upsert_our_triggers (upsert_our_triggers cfg f1) f2).lambdaFunctionConfigurations.getD
        []).filter (fun c => isOurId c.id) = build_our_triggers f2 ∧
    (build_our_triggers f2).length = 2 ∧
    ∀ c ∈ build_our_triggers f2, c.lambdaFunctionArn = some f2 := by
  refine ⟨?_, ?_, rfl, ?_⟩
  · simp [upsert_our_triggers, List.filter_append, filter_notOurs_build,
      filter_notOurs_idem]
  · simp only [upsert_our_triggers, List.filter_append, filter_notOurs_build,
      filter_notOurs_idem, filter_ours_of_filter_notOurs, filter_ours_build,
      Option.getD_some, List.nil_append, List.filter_nil]
  · intro c hc
    simp [build_our_triggers, TRIGGERS] at hc
    rcases hc with h | h <;> simp [h]

/-- Claim C3: removing the owned entries after an upsert gives exactly the
original function-trigger list filtered of owned identifiers (equal to
removing from the original config directly), with the queue, topic and
metadata keys untouched; every non-owned entry of the original list survives,
and the surviving list is a sublist of the original (original relative order). -/
theorem remove_after_upsert (cfg : NotificationConfig) (f : String) :
    remove_our_triggers (upsert_our_triggers cfg f) = remove_our_triggers cfg ∧
    (remove_our_triggers (upsert_our_triggers cfg f)).lambdaFunctionConfigurations =
      some ((cfg.lambdaFunctionConfigurations.getD []).filter notOurs) ∧
    (remove_our_triggers (upsert_our_triggers cfg f)).queueConfigurations =
      cfg.queueConfigurations ∧
    (remove_our_triggers (upsert_our_triggers cfg f)).topicConfigurations =
      cfg.topicConfigurations ∧
    (remove_our_triggers (upsert_our_triggers cfg f)).responseMetadata =
      cfg.responseMetadata ∧
    (∀ c ∈ cfg.lambdaFunctionConfigurations.getD [], notOurs c = true →
      c ∈ (cfg.lambdaFunctionConfigurations.getD []).filter notOurs) ∧
    ((cfg.lambdaFunctionConfigurations.getD []).filter notOurs).Sublist
      (cfg.lambdaFunctionConfigurations.getD []) := by
  refine ⟨?_, ?_, rfl, rfl, rfl, ?_, List.filter_sublist _⟩
  · simp [remove_our_triggers, upsert_our_triggers, List.filter_append,
      filter_notOurs_build, filter_notOurs_idem]
  · simp [remove_our_triggers, upsert_our_triggers, List.filter_append,
      filter_notOurs_build, filter_notOurs_idem]
  · intro c hc hno
    exact List.mem_filter.mpr ⟨hc, hno⟩

/-- Python exceptions that can occur in the handler, as values: a KeyError on
a missing dict key, or an error raised by the S3 put call. -/
inductive PyErr where
  | keyError : String → PyErr
  | putError : String → PyErr
deriving DecidableEq, Repr

/-- str(e) for the signal payload. -/
def PyErr.msg : PyErr → String
  | keyError k => k
  | putError m => m

/-- event["ResourceProperties"], with each key optional so a malformed event
is representable. -/
structure ResourceProps where
  bucketName : Option String := none
  functionArn : Option String := none
deriving DecidableEq, Repr

/-- A custom-resource lifecycle event that is well-formed in its signaling
fields (the ones cfnresponse.send reads: ResponseURL, StackId, RequestId,
LogicalResourceId), while RequestType and ResourceProperties stay optional
(a lookup on a missing key raises KeyError). RawEvent below drops that
restriction and makes every field optional. -/
structure Event where
  requestType : Option String := none
  resourceProperties : Option ResourceProps := none
  responseURL : String := ""
  stackId : String := ""
  requestId : String := ""
  logicalResourceId : String := ""
deriving DecidableEq, Repr

/-- Outcomes of the two S3 calls made during one invocation: what
get_bucket_notification_configuration returns (or raises), and whether
put_bucket_notification_configuration succeeds. -/
structure S3Env where
  getResult : Except String NotificationConfig
  putResult : Except String Unit

def SUCCESS : String := "SUCCESS"
def FAILED : String := "FAILED"

/-- One cfnresponse.send call as observed by the orchestrator: the status,
the data payload and the physical resource id passed. -/
structure Signal where
  status : String
  data : List (String × String)
  physicalResourceId : String
deriving DecidableEq, Repr

/-- The externally visible effects of one handler invocation: the attempted
put calls (bucket, document) and the signals sent, each in order. -/
structure Trace where
  puts : List (String × NotificationConfig) := []
  signals : List Signal := []
deriving DecidableEq, Repr

/-- Python dict truthiness of the configuration document: true iff any key
is present. -/
def configTruthy (cfg : NotificationConfig) : Bool :=
  cfg.lambdaFunctionConfigurations.isSome || cfg.queueConfigurations.isSome ||
    cfg.topicConfigurations.isSome || cfg.responseMetadata.isSome

/-- `to_set = curr if curr else {}` in the Delete branch. -/
def sent_config (curr : NotificationConfig) : NotificationConfig :=
  if configTruthy curr then curr else {}

/-- handler(event, context): returns the effect trace together with the
uncaught exception that ended the invocation, if any. The three property
lookups happen before the try block; inside it, a missing RequestType is
caught by the outer except, a put failure by the inner except, and the GET
never raises (get_current_config swallows its errors). -/
def handler (event : Event) (env : S3Env) : Trace × Option PyErr :=
  match event.resourceProperties with
  | none => ({}, some (PyErr.keyError "ResourceProperties"))
  | some props =>
    match props.bucketName with
    | none => ({}, some (PyErr.keyError "BucketName"))
    | some bucket =>
      match props.functionArn with
      | none => ({}, some (PyErr.keyError "FunctionArn"))
      | some function_arn =>
        let physical_resource_id := bucket
        match event.requestType with
        | none =>
            -- KeyError("RequestType") inside the try: outer except signals FAILED
            ({ signals := [{ status := FAILED,
                             data := [("Error", (PyErr.keyError "RequestType").msg)],
                             physicalResourceId := physical_resource_id }] }, none)
        | some rt =>
          if rt = "Delete" then
            let curr := get_current_config env.getResult
            let curr := remove_our_triggers curr
            let curr := clean_empty_keys curr
            let to_set := sent_config curr
            match env.putResult with
            | Except.ok _ =>
                ({ puts := [(bucket, to_set)],
                   signals := [{ status := SUCCESS, data := [],
                                 physicalResourceId := physical_resource_id }] }, none)
            | Except.error e =>
                ({ puts := [(bucket, to_set)],
                   signals := [{ status := FAILED,
                                 data := [("Error", (PyErr.putError e).msg)],
                                 physicalResourceId := physical_resource_id }] }, none)
          else
            -- Create and Update handled together
            let curr := get_current_config env.getResult
            let curr := upsert_our_triggers curr function_arn
            let curr := clean_empty_keys curr
            match env.putResult with
            | Except.ok _ =>
                ({ puts := [(bucket, curr)],
                   signals := [{ status := SUCCESS, data := [],
                                 physicalResourceId := physical_resource_id }] }, none)
            | Except.error e =>
                ({ puts := [(bucket, curr)],
                   signals := [{ status := FAILED,
                                 data := [("Error", (PyErr.putError e).msg)],
                                 physicalResourceId := physical_resource_id }] }, none)

lemma dropIfEmpty_ne_some_nil {α : Type} (o : Option (List α)) :
    dropIfEmpty o ≠ some [] := by
  match o with
  | none => simp [dropIfEmpty]
  | some [] => simp [dropIfEmpty]
  | some (a :: t) => simp [dropIfEmpty]

lemma dropIfEmpty_of_some_nil {α : Type} (o : Option (List α)) (h : o = some []) :
    dropIfEmpty o = none := by
  subst h; rfl

/-- Claim C6: the fetch never propagates an error and always normalizes: the
function-trigger key is present in every outcome, the transport-metadata key
is removed in every outcome, and on any read error the result is exactly the
fallback document with an empty function-trigger list. -/
theorem get_current_config_spec (res : Except String NotificationConfig) :
    (get_current_config res).lambdaFunctionConfigurations.isSome = true ∧
    (get_current_config res).responseMetadata = none ∧
    (∀ e, res = Except.error e →
      get_current_config res = { lambdaFunctionConfigurations := some [] }) := by
  match res with
  | Except.error e => refine ⟨rfl, rfl, fun _ _ => rfl⟩
  | Except.ok raw =>
      refine ⟨?_, ?_, fun e h => by cases h⟩
      · by_cases h : raw.lambdaFunctionConfigurations.isNone
        · simp [get_current_config, h]
        · simp only [get_current_config, h, if_false, Bool.false_eq_true]
          simpa using Option.ne_none_iff_isSome.mp (by simpa [Option.isNone_iff_eq_none] using h)
      · by_cases h : raw.lambdaFunctionConfigurations.isNone
        · simp [get_current_config, h]
        · simp [get_current_config, h]

/-- Witness for C6 at a failing read. -/
theorem get_current_config_spec_witness :
    get_current_config (Except.error "connection reset") =
      { lambdaFunctionConfigurations := some [] } :=
  (get_current_config_spec (Except.error "connection reset")).2.2 "connection reset" rfl

/-- Claim C7: after clean_empty_keys no configuration-kind key is present with
an empty list; a key holding an empty list is deleted; and a document left
with no keys at all is sent as the empty object. -/
theorem clean_empty_keys_spec (cfg : NotificationConfig) :
    (clean_empty_keys cfg).lambdaFunctionConfigurations ≠ some [] ∧
    (clean_empty_keys cfg).queueConfigurations ≠ some [] ∧
    (clean_empty_keys cfg).topicConfigurations ≠ some [] ∧
    (cfg.lambdaFunctionConfigurations = some [] →
      (clean_empty_keys cfg).lambdaFunctionConfigurations = none) ∧
    (cfg.queueConfigurations = some [] →
      (clean_empty_keys cfg).queueConfigurations = none) ∧
    (cfg.topicConfigurations = some [] →
      (clean_empty_keys cfg).topicConfigurations = none) ∧
    (configTruthy (clean_empty_keys cfg) = false →
      sent_config (clean_empty_keys cfg) = ({} : NotificationConfig)) := by
  refine ⟨dropIfEmpty_ne_some_nil _, dropIfEmpty_ne_some_nil _, dropIfEmpty_ne_some_nil _,
    fun h => dropIfEmpty_of_some_nil _ h, fun h => dropIfEmpty_of_some_nil _ h,
    fun h => dropIfEmpty_of_some_nil _ h, fun h => ?_⟩
  simp [sent_config, h]

/-- Witness for C7 on a document whose three lists are all empty. -/
theorem clean_empty_keys_spec_witness :
    (clean_empty_keys
        { lambdaFunctionConfigurations := some [], queueConfigurations := some [],
          topicConfigurations := some [] }).lambdaFunctionConfigurations = none ∧
    sent_config (clean_empty_keys
        { lambdaFunctionConfigurations := some [], queueConfigurations := some [],
          topicConfigurations := some [] }) = ({} : NotificationConfig) :=
  ⟨(clean_empty_keys_spec
      { lambdaFunctionConfigurations := some [], queueConfigurations := some [],
        topicConfigurations := some [] }).2.2.2.1 rfl,
   (clean_empty_keys_spec
      { lambdaFunctionConfigurations := some [], queueConfigurations := some [],
        topicConfigurations := some [] }).2.2.2.2.2.2 rfl⟩

lemma mem_dropIfEmpty {α : Type} (o : Option (List α)) (c : α)
    (h : c ∈ (dropIfEmpty o).getD []) : c ∈ o.getD [] := by
  match o with
  | none => exact h
  | some [] => exact h
  | some (a :: t) => exact h

lemma sent_config_mem (x : NotificationConfig) (c : LambdaConfig)
    (h : c ∈ (sent_config x).lambdaFunctionConfigurations.getD []) :
    c ∈ x.lambdaFunctionConfigurations.getD [] := by
  by_cases ht : configTruthy x = true
  · simpa [sent_config, ht] using h
  · simp [sent_config, ht] at h

lemma dropIfEmpty_append_build (l : List LambdaConfig) (arn : String) :
    dropIfEmpty (some (l ++ build_our_triggers arn)) = some (l ++ build_our_triggers arn) := by
  cases l with
  | nil => rfl
  | cons a t => rfl

/-- A delete lifecycle event whose ResourceProperties lacks FunctionArn. -/
def evNoArn : Event :=
  { requestType := some "Delete"
    resourceProperties := some { bucketName := some "my-bucket" }
    responseURL := "https://cloudformation-custom-resource-response.example/cb"
    stackId := "stack-1"
    requestId := "req-1"
    logicalResourceId := "ConfigureS3Notification" }

/-- An event with no ResourceProperties key at all. -/
def evNoProps : Event :=
  { requestType := some "Create"
    responseURL := "https://cloudformation-custom-resource-response.example/cb"
    stackId := "stack-1"
    requestId := "req-2"
    logicalResourceId := "ConfigureS3Notification" }

/-- An environment where both S3 calls succeed and the bucket already holds
one foreign trigger entry. -/
def envSample : S3Env :=
  { getResult := Except.ok
      { lambdaFunctionConfigurations := some
          [{ id := some "SomeoneElsesTrigger", lambdaFunctionArn := some "arn:other:fn",
             events := ["s3:ObjectRemoved:*"], filterRules := [] }] }
    putResult := Except.ok () }

/-- Counterexample to claim C1: the invocation on an event whose
ResourceProperties lacks FunctionArn ends with an uncaught KeyError and an
empty signal list — the property lookups happen before any try block, so the
outer catch-all never runs and no FAILED signal is attempted. -/
theorem handler_unsignaled_exception :
    (handler evNoArn envSample).2 = some (PyErr.keyError "FunctionArn") ∧
    (handler evNoArn envSample).1.signals = [] := ⟨rfl, rfl⟩

/-- The lifecycle event with every field optional, so events malformed in
the signaling fields — which make cfnresponse.send itself raise — are
representable. -/
structure RawEvent where
  requestType : Option String := none
  resourceProperties : Option ResourceProps := none
  responseURL : Option String := none
  stackId : Option String := none
  requestId : Option String := none
  logicalResourceId : Option String := none
deriving DecidableEq, Repr

/-- The first KeyError cfnresponse.send raises while reading the event, in
source read order: responseUrl = event["ResponseURL"] first, then StackId,
RequestId and LogicalResourceId inside the responseBody literal; none when
all four signaling fields are present. These reads happen before and outside
send's try/except, which guards only the http.request call. -/
def firstMissingSignalField (event : RawEvent) : Option PyErr :=
  match event.responseURL with
  | none => some (PyErr.keyError "ResponseURL")
  | some _ =>
    match event.stackId with
    | none => some (PyErr.keyError "StackId")
    | some _ =>
      match event.requestId with
      | none => some (PyErr.keyError "RequestId")
      | some _ =>
        match event.logicalResourceId with
        | none => some (PyErr.keyError "LogicalResourceId")
        | some _ => none

/-- One cfnresponse.send call made by the handler on a raw event: a missing
signaling field raises a KeyError out of send; otherwise the call completes
and the signal is delivered to the callback URL (the transport outcome only
affects send's boolean result, which the handler ignores). -/
def sendOnRaw (event : RawEvent) (status : String) (data : List (String × String))
    (physicalResourceId : String) : Except PyErr Signal :=
  match firstMissingSignalField event with
  | some e => Except.error e
  | none =>
      Except.ok { status := status, data := data, physicalResourceId := physicalResourceId }

/-- The handler's outermost except: one last FAILED send; an exception
raised by this send is uncaught. -/
def outerExceptSend (event : RawEvent) (bucket : String) (e : PyErr) :
    List Signal × Option PyErr :=
  match sendOnRaw event FAILED [("Error", e.msg)] bucket with
  | Except.ok s => ([s], none)
  | Except.error e2 => ([], some e2)

/-- A branch-level except (Delete and Create/Update both have one): a FAILED
send whose own exception falls through to the outermost except. -/
def innerExceptSend (event : RawEvent) (bucket : String) (e : PyErr) :
    List Signal × Option PyErr :=
  match sendOnRaw event FAILED [("Error", e.msg)] bucket with
  | Except.ok s => ([s], none)
  | Except.error e2 => outerExceptSend event bucket e2

/-- handler(event, context) on a raw event, with cfnresponse.send's own
event reads modeled: property lookups before the try as in `handler`, then
each branch attempts its put, reaches its success send, and on any raise
runs its inner except's FAILED send, then the outer except's FAILED send,
any exception of which is uncaught. -/
def handlerRaw (event : RawEvent) (env : S3Env) : Trace × Option PyErr :=
  match event.resourceProperties with
  | none => ({}, some (PyErr.keyError "ResourceProperties"))
  | some props =>
    match props.bucketName with
    | none => ({}, some (PyErr.keyError "BucketName"))
    | some bucket =>
      match props.functionArn with
      | none => ({}, some (PyErr.keyError "FunctionArn"))
      | some function_arn =>
        match event.requestType with
        | none =>
            -- KeyError("RequestType") inside the try: outer except signals FAILED
            ({ signals := (outerExceptSend event bucket (PyErr.keyError "RequestType")).1 },
             (outerExceptSend event bucket (PyErr.keyError "RequestType")).2)
        | some rt =>
          if rt = "Delete" then
            let curr := get_current_config env.getResult
            let curr := remove_our_triggers curr
            let curr := clean_empty_keys curr
            let to_set := sent_config curr
            match env.putResult with
            | Except.ok _ =>
                match sendOnRaw event SUCCESS [] bucket with
                | Except.ok s => ({ puts := [(bucket, to_set)], signals := [s] }, none)
                | Except.error e =>
                    ({ puts := [(bucket, to_set)],
                       signals := (innerExceptSend event bucket e).1 },
                     (innerExceptSend event bucket e).2)
            | Except.error pe =>
                ({ puts := [(bucket, to_set)],
                   signals := (innerExceptSend event bucket (PyErr.putError pe)).1 },
                 (innerExceptSend event bucket (PyErr.putError pe)).2)
          else
            -- Create and Update handled together
            let curr := get_current_config env.getResult
            let curr := upsert_our_triggers curr function_arn
            let curr := clean_empty_keys curr
            match env.putResult with
            | Except.ok _ =>
                match sendOnRaw event SUCCESS [] bucket with
                | Except.ok s => ({ puts := [(bucket, curr)], signals := [s] }, none)
                | Except.error e =>
                    ({ puts := [(bucket, curr)],
                       signals := (innerExceptSend event bucket e).1 },
                     (innerExceptSend event bucket e).2)
            | Except.error pe =>
                ({ puts := [(bucket, curr)],
                   signals := (innerExceptSend event bucket (PyErr.putError pe)).1 },
                 (innerExceptSend event bucket (PyErr.putError pe)).2)

lemma sendOnRaw_complete (event : RawEvent)
    (h : firstMissingSignalField event = none)
    (st : String) (d : List (String × String)) (p : String) :
    sendOnRaw event st d p =
      Except.ok { status := st, data := d, physicalResourceId := p } := by
  simp [sendOnRaw, h]

lemma sendOnRaw_missing (event : RawEvent) (e : PyErr)
    (h : firstMissingSignalField event = some e)
    (st : String) (d : List (String × String)) (p : String) :
    sendOnRaw event st d p = Except.error e := by
  simp [sendOnRaw, h]

/-- Claim C1 as amended: the catch-alls convert into a FAILED signal only
exceptions raised inside the try block, and completing any signal needs the
signaling fields. For every event carrying ResourceProperties.BucketName and
FunctionArn: when ResponseURL, StackId, RequestId and LogicalResourceId are
all present, no exception escapes and exactly one SUCCESS or FAILED signal
is completed; when one of them is missing, every send attempt itself raises
that KeyError (cfnresponse.send reads the event outside its transport
try/except), so the invocation ends with it uncaught and with no completed
signal. Events missing BucketName or FunctionArn raise before the try block
with no signal attempted. -/
theorem handlerRaw_signal_guarantee (event : RawEvent) (env : S3Env)
    (props : ResourceProps)
    (hp : event.resourceProperties = some props)
    (hb : props.bucketName.isSome = true)
    (ha : props.functionArn.isSome = true) :
    (firstMissingSignalField event = none →
      (handlerRaw event env).2 = none ∧
      (handlerRaw event env).1.signals.length = 1 ∧
      ∀ s ∈ (handlerRaw event env).1.signals,
        s.status = SUCCESS ∨ s.status = FAILED) ∧
    (∀ e, firstMissingSignalField event = some e →
      (handlerRaw event env).2 = some e ∧
      (handlerRaw event env).1.signals = []) := by
  obtain ⟨b, hb2⟩ := Option.isSome_iff_exists.mp hb
  obtain ⟨a, ha2⟩ := Option.isSome_iff_exists.mp ha
  constructor
  · intro hok
    have hsend := sendOnRaw_complete event hok
    cases hrt : event.requestType with
    | none => simp [handlerRaw, hp, hb2, ha2, hrt, outerExceptSend, hsend]
    | some rt =>
        by_cases hd : rt = "Delete"
        · cases hpr : env.putResult <;>
            simp [handlerRaw, hp, hb2, ha2, hrt, hd, hpr, innerExceptSend,
              outerExceptSend, hsend]
        · cases hpr : env.putResult <;>
            simp [handlerRaw, hp, hb2, ha2, hrt, hd, hpr, innerExceptSend,
              outerExceptSend, hsend]
  · intro e he
    have hsend := sendOnRaw_missing event e he
    cases hrt : event.requestType with
    | none => simp [handlerRaw, hp, hb2, ha2, hrt, outerExceptSend, hsend]
    | some rt =>
        by_cases hd : rt = "Delete"
        · cases hpr : env.putResult <;>
            simp [handlerRaw, hp, hb2, ha2, hrt, hd, hpr, innerExceptSend,
              outerExceptSend, hsend]
        · cases hpr : env.putResult <;>
            simp [handlerRaw, hp, hb2, ha2, hrt, hd, hpr, innerExceptSend,
              outerExceptSend, hsend]

/-- A raw event with all fields present. -/
def rawFull : RawEvent :=
  { requestType := some "Create"
    resourceProperties := some
      { bucketName := some "media-bucket", functionArn := some "arn:test:fn" }
    responseURL := some "https://cloudformation-custom-resource-response.example/cb"
    stackId := some "stack-1"
    requestId := some "req-6"
    logicalResourceId := some "ConfigureS3Notification" }

/-- A raw event with both resource properties but no ResponseURL. -/
def rawNoURL : RawEvent :=
  { requestType := some "Create"
    resourceProperties := some
      { bucketName := some "media-bucket", functionArn := some "arn:test:fn" }
    stackId := some "stack-1"
    requestId := some "req-7"
    logicalResourceId := some "ConfigureS3Notification" }

/-- Witness for the amended C1: both alternatives at concrete events — a
fully formed Create event completes one signal, and the same event without
ResponseURL ends with an uncaught KeyError and no signal. -/
theorem handlerRaw_signal_guarantee_witness :
    ((handlerRaw rawFull envSample).2 = none ∧
     (handlerRaw rawFull envSample).1.signals.length = 1 ∧
     ∀ s ∈ (handlerRaw rawFull envSample).1.signals,
       s.status = SUCCESS ∨ s.status = FAILED) ∧
    ((handlerRaw rawNoURL envSample).2 = some (PyErr.keyError "ResponseURL") ∧
     (handlerRaw rawNoURL envSample).1.signals = []) :=
  ⟨(handlerRaw_signal_guarantee rawFull envSample
      { bucketName := some "media-bucket", functionArn := some "arn:test:fn" }
      rfl rfl rfl).1 rfl,
   (handlerRaw_signal_guarantee rawNoURL envSample
      { bucketName := some "media-bucket", functionArn := some "arn:test:fn" }
      rfl rfl rfl).2 (PyErr.keyError "ResponseURL") rfl⟩

/-- Claim C10: an event missing ResourceProperties, BucketName or FunctionArn
makes the handler raise outside every exception handler — whatever the
RequestType (so even a Delete must carry FunctionArn), the invocation ends
with an uncaught exception and an empty trace: no put, no signal. -/
theorem handler_missing_props_raises (event : Event) (env : S3Env)
    (h : event.resourceProperties = none ∨
         ∃ props, event.resourceProperties = some props ∧
           (props.bucketName = none ∨ props.functionArn = none)) :
    ∃ e, handler event env = ({}, some e) := by
  rcases h with h | ⟨props, hp, h2⟩
  · exact ⟨PyErr.keyError "ResourceProperties", by simp [handler, h]⟩
  · cases hbn : props.bucketName with
    | none => exact ⟨PyErr.keyError "BucketName", by simp [handler, hp, hbn]⟩
    | some b =>
        rcases h2 with h2 | h2
        · rw [h2] at hbn; cases hbn
        · exact ⟨PyErr.keyError "FunctionArn", by simp [handler, hp, hbn, h2]⟩

/-- Witness for C10 on an event with no ResourceProperties at all. -/
theorem handler_missing_props_raises_witness :
    ∃ e, handler evNoProps envSample = ({}, some e) :=
  handler_missing_props_raises evNoProps envSample (Or.inl rfl)

/-- The shape of the single put call that an upsert invocation makes: one
document for the given bucket, whose function-trigger list is some non-owned
remainder followed by the freshly built owned entries. -/
def putsOwnedLast (t : Trace) (bucket arn : String) : Prop :=
  ∃ doc pre, t.puts = [(bucket, doc)] ∧
    doc.lambdaFunctionConfigurations = some (pre ++ build_our_triggers arn) ∧
    ∀ c ∈ pre, notOurs c = true

/-- Claim C4: on Create or Update with FunctionArn "arn:test:fn", the handler
writes exactly one document whose function-trigger list ends with the two
owned entries — ProcessMediaUploadTrigger with the "albums/" filter rule
first, ProcessAvatarUploadTrigger with the "users/" rule second, both
targeting "arn:test:fn" — appended after only non-owned entries. -/
theorem handler_create_update_puts_triggers (event : Event) (env : S3Env)
    (props : ResourceProps) (b : String)
    (hp : event.resourceProperties = some props)
    (hb : props.bucketName = some b)
    (ha : props.functionArn = some "arn:test:fn")
    (hrt : event.requestType = some "Create" ∨ event.requestType = some "Update") :
    putsOwnedLast (handler event env).1 b "arn:test:fn" ∧
    build_our_triggers "arn:test:fn" =
      [{ id := some "ProcessMediaUploadTrigger", lambdaFunctionArn := some "arn:test:fn",
         events := ["s3:ObjectCreated:*"],
         filterRules := [{ ruleName := "prefix", ruleValue := "albums/" }] },
       { id := some "ProcessAvatarUploadTrigger", lambdaFunctionArn := some "arn:test:fn",
         events := ["s3:ObjectCreated:*"],
         filterRules := [{ ruleName := "prefix", ruleValue := "users/" }] }] := by
  refine ⟨?_, rfl⟩
  have key : ∀ rt, event.requestType = some rt → ¬(rt = "Delete") →
      putsOwnedLast (handler event env).1 b "arn:test:fn" := by
    intro rt hrt2 hne
    refine ⟨clean_empty_keys
        (upsert_our_triggers (get_current_config env.getResult) "arn:test:fn"),
      ((get_current_config env.getResult).lambdaFunctionConfigurations.getD []).filter notOurs,
      ?_, ?_, ?_⟩
    · cases hpr : env.putResult <;> simp [handler, hp, hb, ha, hrt2, hne, hpr]
    · simp [clean_empty_keys, upsert_our_triggers, dropIfEmpty_append_build]
    · intro c hc
      exact (List.mem_filter.mp hc).2
  rcases hrt with h | h
  · exact key "Create" h (by decide)
  · exact key "Update" h (by decide)

/-- Witness for C4 on a concrete Create event against a bucket that already
holds a foreign trigger. -/
theorem handler_create_update_puts_triggers_witness :
    putsOwnedLast (handler
        { requestType := some "Create"
          resourceProperties := some
            { bucketName := some "media-bucket", functionArn := some "arn:test:fn" }
          responseURL := "https://cloudformation-custom-resource-response.example/cb"
          stackId := "stack-1", requestId := "req-4",
          logicalResourceId := "ConfigureS3Notification" } envSample).1
      "media-bucket" "arn:test:fn" ∧
    build_our_triggers "arn:test:fn" =
      [{ id := some "ProcessMediaUploadTrigger", lambdaFunctionArn := some "arn:test:fn",
         events := ["s3:ObjectCreated:*"],
         filterRules := [{ ruleName := "prefix", ruleValue := "albums/" }] },
       { id := some "ProcessAvatarUploadTrigger", lambdaFunctionArn := some "arn:test:fn",
         events := ["s3:ObjectCreated:*"],
         filterRules := [{ ruleName := "prefix", ruleValue := "users/" }] }] :=
  handler_create_update_puts_triggers _ envSample
    { bucketName := some "media-bucket", functionArn := some "arn:test:fn" }
    "media-bucket" rfl rfl rfl (Or.inl rfl)

/-- Claim C5: on Delete with a successful put, the handler writes exactly one
document for the bucket in which every function-trigger entry is non-owned,
and signals SUCCESS with empty data and physical resource id equal to the
bucket name. -/
theorem handler_delete_spec (event : Event) (env : S3Env)
    (props : ResourceProps) (b : String)
    (hp : event.resourceProperties = some props)
    (hb : props.bucketName = some b)
    (ha : props.functionArn.isSome = true)
    (hrt : event.requestType = some "Delete")
    (hput : env.putResult = Except.ok ()) :
    (handler event env).2 = none ∧
    (∃ doc, (handler event env).1.puts = [(b, doc)] ∧
      ∀ c ∈ doc.lambdaFunctionConfigurations.getD [], notOurs c = true) ∧
    (handler event env).1.signals =
      [{ status := SUCCESS, data := [], physicalResourceId := b }] := by
  obtain ⟨a, ha2⟩ := Option.isSome_iff_exists.mp ha
  refine ⟨?_,
    ⟨sent_config (clean_empty_keys (remove_our_triggers (get_current_config env.getResult))),
      ?_, ?_⟩, ?_⟩
  · simp [handler, hp, hb, ha2, hrt, hput]
  · simp [handler, hp, hb, ha2, hrt, hput]
  · intro c hc
    have h1 := sent_config_mem _ _ hc
    simp only [clean_empty_keys] at h1
    have h2 := mem_dropIfEmpty _ _ h1
    simp only [remove_our_triggers, Option.getD_some] at h2
    exact (List.mem_filter.mp h2).2
  · simp [handler, hp, hb, ha2, hrt, hput]

/-- Witness for C5 on a concrete Delete event. -/
theorem handler_delete_spec_witness :
    (handler
        { requestType := some "Delete"
          resourceProperties := some
            { bucketName := some "media-bucket", functionArn := some "arn:test:fn" }
          responseURL := "https://cloudformation-custom-resource-response.example/cb"
          stackId := "stack-1", requestId := "req-5",
          logicalResourceId := "ConfigureS3Notification" } envSample).2 = none ∧
    (∃ doc, (handler
        { requestType := some "Delete"
          resourceProperties := some
            { bucketName := some "media-bucket", functionArn := some "arn:test:fn" }
          responseURL := "https://cloudformation-custom-resource-response.example/cb"
          stackId := "stack-1", requestId := "req-5",
          logicalResourceId := "ConfigureS3Notification" } envSample).1.puts =
        [("media-bucket", doc)] ∧
      ∀ c ∈ doc.lambdaFunctionConfigurations.getD [], notOurs c = true) ∧
    (handler
        { requestType := some "Delete"
          resourceProperties := some
            { bucketName := some "media-bucket", functionArn := some "arn:test:fn" }
          responseURL := "https://cloudformation-custom-resource-response.example/cb"
          stackId := "stack-1", requestId := "req-5",
          logicalResourceId := "ConfigureS3Notification" } envSample).1.signals =
      [{ status := SUCCESS, data := [], physicalResourceId := "media-bucket" }] :=
  handler_delete_spec _ envSample
    { bucketName := some "media-bucket", functionArn := some "arn:test:fn" }
    "media-bucket" rfl rfl rfl rfl rfl

/-! cfnresponse.py: the response signaler. -/

/-- The Lambda context object, as far as cfnresponse.send reads it. -/
structure Context where
  logStreamName : String
deriving DecidableEq, Repr

/-- The fixed-shape JSON body cfnresponse.send PUTs to the callback URL. -/
structure ResponseBody where
  status : String
  reason : String
  physicalResourceId : String
  stackId : String
  requestId : String
  logicalResourceId : String
  noEcho : Bool
  data : List (String × String)
deriving DecidableEq, Repr

/-- Whether a transport attempt completed without raising. -/
def exceptOk {ε α : Type} : Except ε α → Bool
  | Except.ok _ => true
  | Except.error _ => false

/-- The responseBody dict built by cfnresponse.send: status, a reason
defaulting to a log-stream reference, a physical resource id defaulting to
the log stream name, the stack/request/logical ids copied from the event,
the noEcho flag and the data payload. -/
def sendBody (event : Event) (context : Context) (responseStatus : String)
    (responseData : Option (List (String × String)))
    (physicalResourceId : Option String) (noEcho : Bool)
    (reasonArg : Option String) : ResponseBody :=
  { status := responseStatus
    reason := reasonArg.getD
      ("See the details in CloudWatch Log Stream: " ++ context.logStreamName)
    physicalResourceId := physicalResourceId.getD context.logStreamName
    stackId := event.stackId
    requestId := event.requestId
    logicalResourceId := event.logicalResourceId
    noEcho := noEcho
    data := responseData.getD [] }

/-- cfnresponse.send: builds the response body, performs one HTTP PUT to
event["ResponseURL"] (the transport either returns a status code or raises a
transport error), returns True on completion and False on a swallowed
exception. The result records the boolean together with the list of PUT
attempts (url, body) actually made. -/
def send (transport : String → ResponseBody → Except String Nat)
    (event : Event) (context : Context) (responseStatus : String)
    (responseData : Option (List (String × String)))
    (physicalResourceId : Option String) (noEcho : Bool)
    (reasonArg : Option String) : Bool × List (String × ResponseBody) :=
  let responseUrl := event.responseURL
  let responseBody := sendBody event context responseStatus responseData
    physicalResourceId noEcho reasonArg
  match transport responseUrl responseBody with
  | Except.ok _ => (true, [(responseUrl, responseBody)])
  | Except.error _ => (false, [(responseUrl, responseBody)])

/-- Claim C8: every call to send attempts exactly one HTTP PUT, to the
event-supplied callback URL with the built body; it returns true exactly when
that single attempt completes without a transport error, and a transport
exception is swallowed (send still returns, with false) with no retry. -/
theorem send_spec (transport : String → ResponseBody → Except String Nat)
    (event : Event) (context : Context) (responseStatus : String)
    (responseData : Option (List (String × String)))
    (physicalResourceId : Option String) (noEcho : Bool)
    (reasonArg : Option String) :
    (send transport event context responseStatus responseData physicalResourceId
        noEcho reasonArg).2 =
      [(event.responseURL,
        sendBody event context responseStatus responseData physicalResourceId
          noEcho reasonArg)] ∧
    (send transport event context responseStatus responseData physicalResourceId
        noEcho reasonArg).1 =
      exceptOk (transport event.responseURL
        (sendBody event context responseStatus responseData physicalResourceId
          noEcho reasonArg)) := by
  cases h : transport event.responseURL
      (sendBody event context responseStatus responseData physicalResourceId
        noEcho reasonArg) with
  | ok n => exact ⟨by simp [send, h], by simp [send, h, exceptOk]⟩
  | error e => exact ⟨by simp [send, h], by simp [send, h, exceptOk]⟩

/-! create-backend-env-json.py: the env-JSON generator. -/

/-- Python str.strip character class (whitespace). -/
def isSpaceChar (c : Char) : Bool :=
  c = ' ' || c = '\t' || c = '\n' || c = '\r' || c = '\x0b' || c = '\x0c'

def dropLeadingSpace : List Char → List Char
  | [] => []
  | c :: t => if isSpaceChar c then dropLeadingSpace t else c :: t

/-- line.strip(): whitespace removed from both ends. -/
def pyStrip (s : String) : String :=
  ⟨(dropLeadingSpace (dropLeadingSpace s.data).reverse).reverse⟩

/-- line.startswith("#"). -/
def startsWithHash (s : String) : Bool :=
  match s.data with
  | c :: _ => c = '#'
  | [] => false

/-- line.split("=", 1): split at the first occurrence of the separator. -/
def splitFirstEq : List Char → Option (List Char × List Char)
  | [] => none
  | c :: rest =>
      if c = '=' then some ([], rest)
      else
        match splitFirstEq rest with
        | some (a, b) => some (c :: a, b)
        | none => none

/-- Python dict assignment d[k] = v: overwrite in place, else append. -/
def dictInsert (d : List (String × String)) (k v : String) : List (String × String) :=
  if d.any (fun p => p.1 = k) then
    d.map (fun p => if p.1 = k then (k, v) else p)
  else d ++ [(k, v)]

/-- One iteration of the env-file loop: strip the line; skip it when empty,
a comment, or without "="; otherwise split on the first "=" and store the
stripped key and value. -/
def envVarsStep (d : List (String × String)) (rawLine : String) :
    List (String × String) :=
  let line := pyStrip rawLine
  if !line.data.isEmpty && !startsWithHash line && line.data.contains '=' then
    match splitFirstEq line.data with
    | some (k, v) => dictInsert d (pyStrip ⟨k⟩) (pyStrip ⟨v⟩)
    | none => d
  else d

/-- env_vars: the dict built from the env file's lines. -/
def env_vars (fileLines : List String) : List (String × String) :=
  fileLines.foldl envVarsStep []

/-- lambda_ids: logical ids of resources whose Type is one of the two
recognized function types, in template order. -/
def lambda_ids (resources : List (String × String)) : List String :=
  (resources.filter fun p =>
      p.2 = "AWS::Serverless::Function" || p.2 = "AWS::Lambda::Function").map Prod.fst

/-- env_json: maps every selected logical id to the same env_vars mapping. -/
def env_json (resources : List (String × String)) (fileLines : List String) :
    List (String × List (String × String)) :=
  (lambda_ids resources).map fun lid => (lid, env_vars fileLines)

/-- Claim C9: on the env file "A=1\nB=2\n#comment\n" and a template with two
function-type resources FnOne and FnOther, the generator outputs exactly
the map sending each id to the two parsed pairs; blank and comment lines are
ignored, and a line splits on the first "=" only so values may contain "=". -/
theorem env_json_example :
    env_json
        [("FnOne", "AWS::Serverless::Function"), ("FnOther", "AWS::Lambda::Function")]
        ["A=1\n", "B=2\n", "#comment\n"] =
      [("FnOne", [("A", "1"), ("B", "2")]), ("FnOther", [("A", "1"), ("B", "2")])] ∧
    env_vars ["A=1\n", "B=2\n", "#comment\n"] = [("A", "1"), ("B", "2")] ∧
    env_vars ["X=a=b\n"] = [("X", "a=b")] ∧
    env_vars ["\n", "   \n", "# only a comment\n", "no separator\n"] = [] := by
  refine ⟨?_, ?_, ?_, ?_⟩ <;> rfl

end S3Notif
